import Mathlib

/-!
Shallow embedding of the VaxSys administrative mutation workflow and
registration workflow (src/app/admin/dashboard/actions.ts and
src/app/signup/actions.ts).

The document store is modelled as an explicit state `DB` holding the `User`
and `Center` collections.  Each server action becomes a total Lean function
from a fault environment (which records, per external call site, whether that
call throws) and a `DB` to a result envelope paired with the resulting `DB`.
A thrown exception is modelled by the body returning `Except.error ()`
together with the store state at the throw point; the exported action wraps
the body in the catch-all boundary of the source, translating a throw into
the operation's generic failure message.
-/

/-- The role enumeration of the `User` schema (`citizen | authority | center`). -/
inductive Role where
  | citizen
  | authority
  | center
deriving DecidableEq, Repr

/-- A persisted `User` document: store-assigned `_id`, mongoose version key
`__v`, and the schema fields used by the actions. -/
structure UserRec where
  _id : String
  __v : Nat
  firebaseUid : String
  email : String
  firstName : String
  lastName : String
  displayName : String
  role : Role
  emailVerified : Bool
deriving DecidableEq, Repr

/-- A persisted `Center` document: `uid` is the optional linked
identity-provider id, `verified` the approval flag. -/
structure CenterRec where
  _id : String
  uid : Option String
  center_name : String
  email : String
  district : String
  address : String
  verified : Bool
deriving DecidableEq, Repr

/-- The document store state: the `User` and `Center` collections. -/
structure DB where
  users : List UserRec
  centers : List CenterRec
deriving DecidableEq, Repr

/-- `User.findOne({ firebaseUid })`: first user whose `firebaseUid` matches. -/
def dbUserFindOne (db : DB) (uid : String) : Option UserRec :=
  db.users.find? (fun u => u.firebaseUid == uid)

/-- `User.findById(id)`: first user whose `_id` matches. -/
def dbUserFindById (db : DB) (id : String) : Option UserRec :=
  db.users.find? (fun u => u._id == id)

/-- `doc.save()` on a user document: replace the stored document with the
same `_id` by the saved one. -/
def dbUserSave (db : DB) (u : UserRec) : DB :=
  { db with users := db.users.map (fun v => if v._id == u._id then u else v) }

/-- `Center.findById(id)`: first center whose `_id` matches. -/
def dbCenterFindById (db : DB) (id : String) : Option CenterRec :=
  db.centers.find? (fun c => c._id == id)

/-- The update applied by `Center.findByIdAndUpdate(id, { verified: true })`
to each stored document. -/
def setVerifiedIfId (cid : String) (c : CenterRec) : CenterRec :=
  if c._id == cid then { c with verified := true } else c

/-- `Center.findByIdAndUpdate(centerId, { verified: true }, { new: true })`:
updates the matching document and returns the updated document, or `none`
(and no change) when no document matches. -/
def dbCenterFindByIdAndUpdateVerified (db : DB) (cid : String) :
    Option CenterRec × DB :=
  match db.centers.find? (fun c => c._id == cid) with
  | none => (none, db)
  | some c =>
      (some { c with verified := true },
       { db with centers := db.centers.map (setVerifiedIfId cid) })

/-- `Center.findByIdAndDelete(id)`: remove the matching document. -/
def dbCenterFindByIdAndDelete (db : DB) (cid : String) : DB :=
  { db with centers := db.centers.filter (fun c => c._id != cid) }

/-- Fault environment for the dashboard actions: one flag per external call
site, `true` meaning that call throws when reached. -/
structure Faults where
  exDbConnect : Bool
  exUserFind : Bool
  exCenterFind : Bool
  exUserFindOne : Bool
  exUserFindById : Bool
  exUserSave : Bool
  exCenterFindByIdAndUpdate : Bool
  exCenterFindById : Bool
  exAdminInit : Bool
  exAuthDelete : Bool
  exCenterFindByIdAndDelete : Bool
deriving DecidableEq, Repr

/-- The fault-free environment: no external call throws. -/
def noFaults : Faults :=
  ⟨false, false, false, false, false, false, false, false, false, false, false⟩

/-- The all-faults environment: every external call throws when reached. -/
def allFaults : Faults :=
  ⟨true, true, true, true, true, true, true, true, true, true, true⟩

/-- The uniform result envelope of the dashboard mutations:
`{ success: true }` or `{ success: false, error }`. -/
inductive ActionResult where
  | success
  | failure (error : String)
deriving DecidableEq, Repr

/-- The raw (unknown-shaped) input of `updateUserRole`, before zod
validation: each expected key may be absent, and `newRole` is a raw string. -/
structure RawUpdateUserRole where
  targetUserId : Option String
  newRole : Option String
  adminFirebaseUid : Option String
deriving DecidableEq, Repr

/-- The parsed input of `updateUserRole`. -/
structure UpdateUserRoleInput where
  targetUserId : String
  newRole : Role
  adminFirebaseUid : String
deriving DecidableEq, Repr

/-- `z.enum(['citizen', 'authority', 'center'])`. -/
def parseRole : String → Option Role
  | "citizen" => some Role.citizen
  | "authority" => some Role.authority
  | "center" => some Role.center
  | _ => none

/-- `updateUserRoleSchema.safeParse`: all three keys present and the role
one of the three enumerated strings. -/
def updateUserRoleSafeParse (raw : RawUpdateUserRole) :
    Option UpdateUserRoleInput :=
  match raw.targetUserId, raw.newRole, raw.adminFirebaseUid with
  | some t, some r, some a =>
      match parseRole r with
      | some role => some ⟨t, role, a⟩
      | none => none
  | _, _, _ => none

/-- The check `!adminUser || adminUser.role !== 'authority'`, negated:
the looked-up actor exists and has role `authority`. -/
def isAuthorityUser : Option UserRec → Bool
  | some u => u.role == Role.authority
  | none => false

/-- Body of `updateUserRole` inside its `try`: `Except.error ()` marks a
thrown exception, paired with the store state at the throw point. -/
def updateUserRoleBody (env : Faults) (db : DB) (d : UpdateUserRoleInput) :
    Except Unit ActionResult × DB :=
  if env.exDbConnect then (Except.error (), db)
  else if env.exUserFindOne then (Except.error (), db)
  else
    let adminUser := dbUserFindOne db d.adminFirebaseUid
    if ¬ isAuthorityUser adminUser then
      (Except.ok (ActionResult.failure "Permission denied. Not an administrator."), db)
    else if env.exUserFindById then (Except.error (), db)
    else
      match dbUserFindById db d.targetUserId with
      | none => (Except.ok (ActionResult.failure "Target user not found."), db)
      | some targetUser =>
          if (adminUser.map (fun u => u.firebaseUid)) = some targetUser.firebaseUid then
            (Except.ok (ActionResult.failure "Administrators cannot change their own role."), db)
          else if env.exUserSave then (Except.error (), db)
          else
            (Except.ok ActionResult.success,
             dbUserSave db { targetUser with role := d.newRole })

/-- `updateUserRole`: zod validation, then the `try` body, with the
catch-all boundary translating a throw into the generic message. -/
def updateUserRole (env : Faults) (db : DB) (raw : RawUpdateUserRole) :
    ActionResult × DB :=
  match updateUserRoleSafeParse raw with
  | none => (ActionResult.failure "Invalid input data.", db)
  | some d =>
      match updateUserRoleBody env db d with
      | (Except.ok r, db') => (r, db')
      | (Except.error _, db') =>
          (ActionResult.failure "An internal error occurred while updating the role.", db')

/-- Raw input of `verifyCenter` and `rejectCenter` (the two zod schemas are
identical: `centerId` and `adminFirebaseUid`, both strings). -/
structure RawCenterAction where
  centerId : Option String
  adminFirebaseUid : Option String
deriving DecidableEq, Repr

/-- Parsed input of `verifyCenter` / `rejectCenter`. -/
structure CenterActionInput where
  centerId : String
  adminFirebaseUid : String
deriving DecidableEq, Repr

/-- `verifyCenterSchema.safeParse` / `rejectCenterSchema.safeParse`. -/
def centerActionSafeParse (raw : RawCenterAction) : Option CenterActionInput :=
  match raw.centerId, raw.adminFirebaseUid with
  | some c, some a => some ⟨c, a⟩
  | _, _ => none

/-- Body of `verifyCenter` inside its `try`. -/
def verifyCenterBody (env : Faults) (db : DB) (d : CenterActionInput) :
    Except Unit ActionResult × DB :=
  if env.exDbConnect then (Except.error (), db)
  else if env.exUserFindOne then (Except.error (), db)
  else if ¬ isAuthorityUser (dbUserFindOne db d.adminFirebaseUid) then
    (Except.ok (ActionResult.failure "Permission denied. Not an administrator."), db)
  else if env.exCenterFindByIdAndUpdate then (Except.error (), db)
  else
    match dbCenterFindByIdAndUpdateVerified db d.centerId with
    | (none, db') => (Except.ok (ActionResult.failure "Center not found."), db')
    | (some _, db') => (Except.ok ActionResult.success, db')

/-- `verifyCenter`: zod validation, then the `try` body wrapped in the
catch-all boundary. -/
def verifyCenter (env : Faults) (db : DB) (raw : RawCenterAction) :
    ActionResult × DB :=
  match centerActionSafeParse raw with
  | none => (ActionResult.failure "Invalid input data.", db)
  | some d =>
      match verifyCenterBody env db d with
      | (Except.ok r, db') => (r, db')
      | (Except.error _, db') =>
          (ActionResult.failure "An internal error occurred while verifying the center.", db')

/-- Body of `rejectCenter` inside its `try`.  The third component records
the identity-provider deletion calls attempted (`auth.deleteUser(uid)`),
whether or not they throw: the inner `try/catch` swallows that throw. -/
def rejectCenterBody (env : Faults) (db : DB) (d : CenterActionInput) :
    Except Unit ActionResult × DB × List String :=
  if env.exDbConnect then (Except.error (), db, [])
  else if env.exUserFindOne then (Except.error (), db, [])
  else if ¬ isAuthorityUser (dbUserFindOne db d.adminFirebaseUid) then
    (Except.ok (ActionResult.failure "Permission denied. Not an administrator."), db, [])
  else if env.exCenterFindById then (Except.error (), db, [])
  else
    match dbCenterFindById db d.centerId with
    | none => (Except.ok (ActionResult.failure "Center not found."), db, [])
    | some center =>
        if env.exAdminInit then (Except.error (), db, [])
        else
          let deleted := match center.uid with
            | some u => [u]
            | none => []
          if env.exCenterFindByIdAndDelete then (Except.error (), db, deleted)
          else
            (Except.ok ActionResult.success,
             dbCenterFindByIdAndDelete db d.centerId, deleted)

/-- `rejectCenter`: zod validation, then the `try` body wrapped in the
catch-all boundary; the trace of attempted identity-provider deletions is
returned alongside. -/
def rejectCenter (env : Faults) (db : DB) (raw : RawCenterAction) :
    ActionResult × DB × List String :=
  match centerActionSafeParse raw with
  | none => (ActionResult.failure "Invalid input data.", db, [])
  | some d =>
      match rejectCenterBody env db d with
      | (Except.ok r, db', tr) => (r, db', tr)
      | (Except.error _, db', tr) =>
          (ActionResult.failure "An internal error occurred while rejecting the center.", db', tr)

/-- Projection selected by `getUsers`
(`firebaseUid firstName lastName email role`, plus the implicit `_id`). -/
structure UserSummary where
  _id : String
  firebaseUid : String
  firstName : String
  lastName : String
  email : String
  role : Role
deriving DecidableEq, Repr

/-- Projection selected by `getCenters`
(`center_name email location verified`, plus the implicit `_id`). -/
structure CenterSummary where
  _id : String
  center_name : String
  email : String
  district : String
  address : String
  verified : Bool
deriving DecidableEq, Repr

/-- Result envelope of `getUsers`. -/
inductive GetUsersResult where
  | success (users : List UserSummary)
  | failure (error : String)
deriving DecidableEq, Repr

/-- Result envelope of `getCenters`. -/
inductive GetCentersResult where
  | success (centers : List CenterSummary)
  | failure (error : String)
deriving DecidableEq, Repr

/-- `getUsers`: fetch all users with the selected projection, catch-all
boundary returning the generic fetch failure. -/
def getUsers (env : Faults) (db : DB) : GetUsersResult :=
  if env.exDbConnect then GetUsersResult.failure "Failed to fetch users."
  else if env.exUserFind then GetUsersResult.failure "Failed to fetch users."
  else
    GetUsersResult.success (db.users.map (fun u =>
      ⟨u._id, u.firebaseUid, u.firstName, u.lastName, u.email, u.role⟩))

/-- `getCenters`: fetch all centers with the selected projection, catch-all
boundary returning the generic fetch failure. -/
def getCenters (env : Faults) (db : DB) : GetCentersResult :=
  if env.exDbConnect then GetCentersResult.failure "Failed to fetch centers."
  else if env.exCenterFind then GetCentersResult.failure "Failed to fetch centers."
  else
    GetCentersResult.success (db.centers.map (fun c =>
      ⟨c._id, c.center_name, c.email, c.district, c.address, c.verified⟩))

/-- Identity-provider error codes distinguished by the signup catch handler:
`auth/email-already-in-use`, `auth/weak-password`, and everything else
(including codes carried by store or email-dispatch exceptions). -/
inductive AuthErrCode where
  | emailAlreadyInUse
  | weakPassword
  | other
deriving DecidableEq, Repr

/-- The account handle returned by
`createUserWithEmailAndPassword`: uid and email of the created account. -/
structure FirebaseUser where
  uid : String
  email : String
deriving DecidableEq, Repr

/-- The signup form fields. -/
structure SignupFormData where
  firstName : String
  lastName : String
  email : String
  password : String
deriving DecidableEq, Repr

/-- Fault environment of `signup`: the identity-provider account creation
either yields an account or throws with a code; the other call sites throw
(with a non-auth code) when flagged.  `assignedId` is the store-assigned
`_id` of the new document. -/
structure SignupEnv where
  createUser : Except AuthErrCode FirebaseUser
  exSendVerification : Bool
  exDbConnect : Bool
  exSave : Bool
  assignedId : String
deriving Repr

/-- The user-facing message chosen by the signup catch handler from the
caught error's code. -/
def signupErrorMessage : AuthErrCode → String
  | AuthErrCode.emailAlreadyInUse => "A user with this email already exists."
  | AuthErrCode.weakPassword =>
      "The password is too weak. Please choose a stronger password."
  | AuthErrCode.other => "An unexpected error occurred during signup."

/-- The user object returned to the client on successful signup: the
persisted document with `_id` and `__v` stripped (and, like the schema,
no password field at all). -/
structure ClientUser where
  firebaseUid : String
  email : String
  firstName : String
  lastName : String
  displayName : String
  role : Role
  emailVerified : Bool
deriving DecidableEq, Repr

/-- `const \x7b _id, __v, ...userWithoutSensitiveData \x7d = userObject`:
drop the store-assigned `_id` and version `__v` from the document. -/
def toClientObject (u : UserRec) : ClientUser :=
  ⟨u.firebaseUid, u.email, u.firstName, u.lastName, u.displayName,
   u.role, u.emailVerified⟩

/-- Result envelope of `signup`. -/
inductive SignupResult where
  | success (user : ClientUser)
  | failure (error : String)
deriving DecidableEq, Repr

/-- `signup`: create the identity-provider account, send the verification
email, connect, persist the local `User`, return the sanitized object; one
catch-all boundary maps any throw to a message chosen from its code.
The `role` field of the new document is not set by the signup code.
Modelled from the spec: the `User` schema (models/User.ts, not in the
reviewed sources) defaults `role` to `citizen`, and the store assigns the
version key `__v = 0` on first save. -/
def signup (env : SignupEnv) (db : DB) (fd : SignupFormData) :
    SignupResult × DB :=
  match env.createUser with
  | Except.error c => (SignupResult.failure (signupErrorMessage c), db)
  | Except.ok firebaseUser =>
      if env.exSendVerification then
        (SignupResult.failure (signupErrorMessage AuthErrCode.other), db)
      else if env.exDbConnect then
        (SignupResult.failure (signupErrorMessage AuthErrCode.other), db)
      else
        let newUser : UserRec :=
          { _id := env.assignedId
            __v := 0
            firebaseUid := firebaseUser.uid
            email := firebaseUser.email
            firstName := fd.firstName
            lastName := fd.lastName
            displayName := fd.firstName ++ " " ++ fd.lastName
            role := Role.citizen
            emailVerified := false }
        if env.exSave then
          (SignupResult.failure (signupErrorMessage AuthErrCode.other), db)
        else
          (SignupResult.success (toClientObject newUser),
           { db with users := db.users ++ [newUser] })

/-- Sample administrator (`role = authority`, uid `A1`). -/
def sampleAdmin : UserRec :=
  { _id := "U1", __v := 0, firebaseUid := "A1", email := "a@x.org",
    firstName := "Ada", lastName := "Min", displayName := "Ada Min",
    role := Role.authority, emailVerified := true }

/-- Sample citizen (`role = citizen`, uid `C1`). -/
def sampleCitizen : UserRec :=
  { _id := "U2", __v := 0, firebaseUid := "C1", email := "c@x.org",
    firstName := "Cit", lastName := "Izen", displayName := "Cit Izen",
    role := Role.citizen, emailVerified := false }

/-- Sample pending center with a linked identity-provider id. -/
def sampleCenter : CenterRec :=
  { _id := "X", uid := some "firebase-123", center_name := "Clinic",
    email := "x@x.org", district := "D1", address := "1 Main St",
    verified := false }

/-- Sample pending center with no linked identity-provider id. -/
def sampleCenterNoUid : CenterRec :=
  { _id := "Y", uid := none, center_name := "Clinic2",
    email := "y@x.org", district := "D2", address := "2 Main St",
    verified := false }

/-- Sample store state. -/
def sampleDB : DB :=
  ⟨[sampleAdmin, sampleCitizen], [sampleCenter, sampleCenterNoUid]⟩

example :
    updateUserRole noFaults sampleDB ⟨some "U2", some "authority", some "A1"⟩
      = (ActionResult.success,
         ⟨[sampleAdmin, { sampleCitizen with role := Role.authority }],
          [sampleCenter, sampleCenterNoUid]⟩) := by decide

example :
    (verifyCenter noFaults sampleDB ⟨some "X", some "C1"⟩).1
      = ActionResult.failure "Permission denied. Not an administrator." := by decide

example :
    (verifyCenter noFaults sampleDB ⟨some "X", some "A1"⟩).2.centers
      = [{ sampleCenter with verified := true }, sampleCenterNoUid] := by decide

example :
    rejectCenter noFaults sampleDB ⟨some "Y", some "A1"⟩
      = (ActionResult.success,
         ⟨[sampleAdmin, sampleCitizen], [sampleCenter]⟩, []) := by decide

example :
    rejectCenter { noFaults with exAuthDelete := true } sampleDB ⟨some "X", some "A1"⟩
      = (ActionResult.success,
         ⟨[sampleAdmin, sampleCitizen], [sampleCenterNoUid]⟩, ["firebase-123"]) := by decide

example :
    (updateUserRole noFaults sampleDB ⟨some "U1", some "citizen", some "A1"⟩).1
      = ActionResult.failure "Administrators cannot change their own role." := by decide

/-! ## Helper lemmas -/

/-- A user found by `firebaseUid` carries that `firebaseUid`. -/
lemma dbUserFindOne_uid (db : DB) (uid : String) (a : UserRec)
    (h : dbUserFindOne db uid = some a) : a.firebaseUid = uid := by
  unfold dbUserFindOne at h
  have := List.find?_some h
  simpa using this

/-- A user found by `_id` carries that `_id`. -/
lemma dbUserFindById_id (db : DB) (id : String) (t : UserRec)
    (h : dbUserFindById db id = some t) : t._id = id := by
  unfold dbUserFindById at h
  have := List.find?_some h
  simpa using this

/-- A center found by `_id` carries that `_id`. -/
lemma dbCenterFindById_id (db : DB) (id : String) (c : CenterRec)
    (h : dbCenterFindById db id = some c) : c._id = id := by
  unfold dbCenterFindById at h
  have := List.find?_some h
  simpa using this

/-- An actor passing the authorization check is a stored user with role
`authority` and the given `firebaseUid`. -/
lemma isAuthority_exists (db : DB) (uid : String)
    (h : isAuthorityUser (dbUserFindOne db uid) = true) :
    ∃ a, dbUserFindOne db uid = some a ∧ a.role = Role.authority
      ∧ a.firebaseUid = uid := by
  cases ho : dbUserFindOne db uid with
  | none => rw [ho] at h; simp [isAuthorityUser] at h
  | some a =>
      rw [ho] at h
      simp only [isAuthorityUser, beq_iff_eq] at h
      exact ⟨a, rfl, h, dbUserFindOne_uid db uid a ho⟩

/-! ## Claim theorems -/

/-- C4: `updateUserRole` checks its preconditions in exactly this order,
returning the first failing check's tagged error without mutating anything:
(a) input matches the schema, else a validation error; (b) the actor resolves
to a stored User with role `authority`, else a permission error; (c) the
target user exists, else a not-found error; (d) the target is not the actor,
else a self-modification error. -/
theorem updateUserRole_check_order (db : DB) :
    (∀ raw, updateUserRoleSafeParse raw = none →
      updateUserRole noFaults db raw
        = (ActionResult.failure "Invalid input data.", db))
    ∧ (∀ raw d, updateUserRoleSafeParse raw = some d →
      isAuthorityUser (dbUserFindOne db d.adminFirebaseUid) = false →
      updateUserRole noFaults db raw
        = (ActionResult.failure "Permission denied. Not an administrator.", db))
    ∧ (∀ raw d, updateUserRoleSafeParse raw = some d →
      isAuthorityUser (dbUserFindOne db d.adminFirebaseUid) = true →
      dbUserFindById db d.targetUserId = none →
      updateUserRole noFaults db raw
        = (ActionResult.failure "Target user not found.", db))
    ∧ (∀ raw d t, updateUserRoleSafeParse raw = some d →
      isAuthorityUser (dbUserFindOne db d.adminFirebaseUid) = true →
      dbUserFindById db d.targetUserId = some t →
      t.firebaseUid = d.adminFirebaseUid →
      updateUserRole noFaults db raw
        = (ActionResult.failure "Administrators cannot change their own role.", db)) := by
  refine ⟨?_, ?_, ?_, ?_⟩
  · intro raw hp
    simp [updateUserRole, hp]
  · intro raw d hp ha
    simp [updateUserRole, hp, updateUserRoleBody, noFaults, ha]
  · intro raw d hp ha hn
    simp [updateUserRole, hp, updateUserRoleBody, noFaults, ha, hn]
  · intro raw d t hp ha ht hself
    obtain ⟨a, hoa, _, hauid⟩ := isAuthority_exists db d.adminFirebaseUid ha
    rw [hoa] at ha
    simp [updateUserRole, hp, updateUserRoleBody, noFaults, ha, ht, hoa,
          hauid, hself]

/-- Witness for C4: the four tagged errors observed in order on the sample
store (missing key; citizen actor; unknown target id; admin targeting
themselves). -/
theorem updateUserRole_check_order_witness :
    updateUserRole noFaults sampleDB ⟨none, some "authority", some "A1"⟩
      = (ActionResult.failure "Invalid input data.", sampleDB)
    ∧ updateUserRole noFaults sampleDB ⟨some "U2", some "authority", some "C1"⟩
      = (ActionResult.failure "Permission denied. Not an administrator.", sampleDB)
    ∧ updateUserRole noFaults sampleDB ⟨some "NOPE", some "authority", some "A1"⟩
      = (ActionResult.failure "Target user not found.", sampleDB)
    ∧ updateUserRole noFaults sampleDB ⟨some "U1", some "citizen", some "A1"⟩
      = (ActionResult.failure "Administrators cannot change their own role.", sampleDB) := by
  have h := updateUserRole_check_order sampleDB
  exact ⟨h.1 _ (by decide),
         h.2.1 _ ⟨"U2", Role.authority, "C1"⟩ (by decide) (by decide),
         h.2.2.1 _ ⟨"NOPE", Role.authority, "A1"⟩ (by decide) (by decide) (by decide),
         h.2.2.2 _ ⟨"U1", Role.citizen, "A1"⟩ sampleAdmin (by decide) (by decide)
           (by decide) (by decide)⟩

/-- C5: for every `updateUserRole` call in which the target user is the
acting administrator (the target's `firebaseUid` equals the actor's) and the
earlier validation, authorization and existence checks pass, the result is
the self-modification failure regardless of which role was requested, and
the store is unchanged. -/
theorem updateUserRole_self_modification (db : DB) (raw : RawUpdateUserRole)
    (d : UpdateUserRoleInput) (t : UserRec)
    (hp : updateUserRoleSafeParse raw = some d)
    (ha : isAuthorityUser (dbUserFindOne db d.adminFirebaseUid) = true)
    (ht : dbUserFindById db d.targetUserId = some t)
    (hself : t.firebaseUid = d.adminFirebaseUid) :
    updateUserRole noFaults db raw
      = (ActionResult.failure "Administrators cannot change their own role.", db) := by
  obtain ⟨a, hoa, _, hauid⟩ := isAuthority_exists db d.adminFirebaseUid ha
  rw [hoa] at ha
  simp [updateUserRole, hp, updateUserRoleBody, noFaults, ha, ht, hoa,
        hauid, hself]

/-- Witness for C5: on the sample store the admin targets their own record
under each of the three requested roles; all three calls fail with the
self-modification error and leave the store unchanged. -/
theorem updateUserRole_self_modification_witness :
    updateUserRole noFaults sampleDB ⟨some "U1", some "citizen", some "A1"⟩
      = (ActionResult.failure "Administrators cannot change their own role.", sampleDB)
    ∧ updateUserRole noFaults sampleDB ⟨some "U1", some "authority", some "A1"⟩
      = (ActionResult.failure "Administrators cannot change their own role.", sampleDB)
    ∧ updateUserRole noFaults sampleDB ⟨some "U1", some "center", some "A1"⟩
      = (ActionResult.failure "Administrators cannot change their own role.", sampleDB) :=
  ⟨updateUserRole_self_modification sampleDB _ ⟨"U1", Role.citizen, "A1"⟩
     sampleAdmin (by decide) (by decide) (by decide) (by decide),
   updateUserRole_self_modification sampleDB _ ⟨"U1", Role.authority, "A1"⟩
     sampleAdmin (by decide) (by decide) (by decide) (by decide),
   updateUserRole_self_modification sampleDB _ ⟨"U1", Role.center, "A1"⟩
     sampleAdmin (by decide) (by decide) (by decide) (by decide)⟩

/-- C1: for every call to a privileged operation (`updateUserRole`,
`verifyCenter`, `rejectCenter`) in which the acting administrator's
identity-provider id does not resolve to a stored User with role
`authority`, the result is the permission failure and the store (in
particular the target User's role and the target Center's `verified` flag)
is unchanged. -/
theorem privileged_ops_require_authority (db : DB)
    (rawU : RawUpdateUserRole) (dU : UpdateUserRoleInput)
    (rawV : RawCenterAction) (dV : CenterActionInput)
    (rawR : RawCenterAction) (dR : CenterActionInput)
    (hpU : updateUserRoleSafeParse rawU = some dU)
    (haU : isAuthorityUser (dbUserFindOne db dU.adminFirebaseUid) = false)
    (hpV : centerActionSafeParse rawV = some dV)
    (haV : isAuthorityUser (dbUserFindOne db dV.adminFirebaseUid) = false)
    (hpR : centerActionSafeParse rawR = some dR)
    (haR : isAuthorityUser (dbUserFindOne db dR.adminFirebaseUid) = false) :
    updateUserRole noFaults db rawU
      = (ActionResult.failure "Permission denied. Not an administrator.", db)
    ∧ verifyCenter noFaults db rawV
      = (ActionResult.failure "Permission denied. Not an administrator.", db)
    ∧ rejectCenter noFaults db rawR
      = (ActionResult.failure "Permission denied. Not an administrator.", db, []) := by
  refine ⟨?_, ?_, ?_⟩
  · simp [updateUserRole, hpU, updateUserRoleBody, noFaults, haU]
  · simp [verifyCenter, hpV, verifyCenterBody, noFaults, haV]
  · simp [rejectCenter, hpR, rejectCenterBody, noFaults, haR]

/-- Witness for C1: on the sample store the citizen (`uid C1`) calls all
three privileged operations; each fails with the permission error and the
store is unchanged, in particular center `X` stays unverified. -/
theorem privileged_ops_require_authority_witness :
    (updateUserRole noFaults sampleDB ⟨some "U1", some "citizen", some "C1"⟩
       = (ActionResult.failure "Permission denied. Not an administrator.", sampleDB)
     ∧ verifyCenter noFaults sampleDB ⟨some "X", some "C1"⟩
       = (ActionResult.failure "Permission denied. Not an administrator.", sampleDB)
     ∧ rejectCenter noFaults sampleDB ⟨some "X", some "C1"⟩
       = (ActionResult.failure "Permission denied. Not an administrator.", sampleDB, []))
    ∧ dbCenterFindById sampleDB "X" = some sampleCenter
    ∧ sampleCenter.verified = false :=
  ⟨privileged_ops_require_authority sampleDB
     ⟨some "U1", some "citizen", some "C1"⟩ ⟨"U1", Role.citizen, "C1"⟩
     ⟨some "X", some "C1"⟩ ⟨"X", "C1"⟩
     ⟨some "X", some "C1"⟩ ⟨"X", "C1"⟩
     (by decide) (by decide) (by decide) (by decide) (by decide) (by decide),
   by decide, by decide⟩

/-- After `Center.findByIdAndDelete(cid)` no center with `_id = cid` remains. -/
lemma dbCenterFindById_after_delete (db : DB) (cid : String) :
    dbCenterFindById (dbCenterFindByIdAndDelete db cid) cid = none := by
  unfold dbCenterFindById dbCenterFindByIdAndDelete
  rw [List.find?_eq_none]
  intro c hc
  have := List.of_mem_filter hc
  simp only [bne_iff_ne, ne_eq] at this
  simp [this]

/-- C2: for every `rejectCenter` call passing validation, authorization and
the center-exists check, and whether or not the identity-provider deletion
call throws (`b`): the identity-provider deletion is attempted exactly on
the center's linked uid when present (`c.uid.toList`, so never when `uid`
is absent), the center record is deleted, and the operation returns
success. -/
theorem rejectCenter_best_effort (db : DB) (raw : RawCenterAction)
    (d : CenterActionInput) (c : CenterRec) (b : Bool)
    (hp : centerActionSafeParse raw = some d)
    (ha : isAuthorityUser (dbUserFindOne db d.adminFirebaseUid) = true)
    (hc : dbCenterFindById db d.centerId = some c) :
    rejectCenter { noFaults with exAuthDelete := b } db raw
      = (ActionResult.success, dbCenterFindByIdAndDelete db d.centerId,
         c.uid.toList)
    ∧ dbCenterFindById (dbCenterFindByIdAndDelete db d.centerId) d.centerId
      = none := by
  refine ⟨?_, dbCenterFindById_after_delete db d.centerId⟩
  simp only [rejectCenter, hp, rejectCenterBody, noFaults, ha, hc,
             not_true_eq_false, if_false, Bool.false_eq_true]
  cases huid : c.uid <;> simp [huid]

/-- Witness for C2: rejecting center `X` (linked uid `firebase-123`) while
the identity-provider deletion throws still deletes the record and reports
success, with exactly that uid attempted; rejecting center `Y` (no linked
uid) attempts no deletion call and still deletes the record. -/
theorem rejectCenter_best_effort_witness :
    rejectCenter { noFaults with exAuthDelete := true } sampleDB
        ⟨some "X", some "A1"⟩
      = (ActionResult.success, dbCenterFindByIdAndDelete sampleDB "X",
         ["firebase-123"])
    ∧ rejectCenter { noFaults with exAuthDelete := false } sampleDB
        ⟨some "Y", some "A1"⟩
      = (ActionResult.success, dbCenterFindByIdAndDelete sampleDB "Y", [])
    ∧ dbCenterFindById (dbCenterFindByIdAndDelete sampleDB "X") "X" = none :=
  ⟨(rejectCenter_best_effort sampleDB ⟨some "X", some "A1"⟩ ⟨"X", "A1"⟩
      sampleCenter true (by decide) (by decide) (by decide)).1,
   (rejectCenter_best_effort sampleDB ⟨some "Y", some "A1"⟩ ⟨"Y", "A1"⟩
      sampleCenterNoUid false (by decide) (by decide) (by decide)).1,
   (rejectCenter_best_effort sampleDB ⟨some "X", some "A1"⟩ ⟨"X", "A1"⟩
      sampleCenter true (by decide) (by decide) (by decide)).2⟩

/-- The `verified := true` update preserves `_id`. -/
lemma setVerifiedIfId_id (cid : String) (c : CenterRec) :
    (setVerifiedIfId cid c)._id = c._id := by
  unfold setVerifiedIfId
  split <;> rfl

/-- The `verified := true` update is idempotent on a document. -/
lemma setVerifiedIfId_idem (cid : String) (c : CenterRec) :
    setVerifiedIfId cid (setVerifiedIfId cid c) = setVerifiedIfId cid c := by
  unfold setVerifiedIfId
  split <;> simp_all

/-- Applying the `verified := true` update across the collection twice is
the same as applying it once. -/
lemma map_setVerified_idem (l : List CenterRec) (cid : String) :
    (l.map (setVerifiedIfId cid)).map (setVerifiedIfId cid)
      = l.map (setVerifiedIfId cid) := by
  rw [List.map_map]
  exact List.map_congr_left (fun a _ => setVerifiedIfId_idem cid a)

/-- Finding by `_id` after the collection-wide `verified := true` update
returns the update of what finding by `_id` returned before. -/
lemma find?_map_setVerified (l : List CenterRec) (cid : String) :
    (l.map (setVerifiedIfId cid)).find? (fun c => c._id == cid)
      = (l.find? (fun c => c._id == cid)).map (setVerifiedIfId cid) := by
  induction l with
  | nil => rfl
  | cons a t ih =>
      simp only [List.map_cons]
      cases h : (a._id == cid) with
      | true =>
          have h1 : ((setVerifiedIfId cid a)._id == cid) = true := by
            rw [setVerifiedIfId_id]; exact h
          rw [List.find?_cons_of_pos (p := fun (c : CenterRec) => c._id == cid) _ h1,
              List.find?_cons_of_pos (p := fun (c : CenterRec) => c._id == cid) _ h]
          simp
      | false =>
          have h1 : ¬ ((setVerifiedIfId cid a)._id == cid) = true := by
            rw [setVerifiedIfId_id, h]; exact Bool.false_ne_true
          rw [List.find?_cons_of_neg (p := fun (c : CenterRec) => c._id == cid) _ h1,
              List.find?_cons_of_neg (p := fun (c : CenterRec) => c._id == cid) _ (by simp [h])]
          exact ih

/-- C3: `verifyCenter` is idempotent: for a center that exists and a valid
administrator, calling it twice succeeds both times, the second call leaves
the store exactly as the first left it (no observable change), and after
the second call the center's `verified` flag is `true`. -/
theorem verifyCenter_idem (db : DB) (raw : RawCenterAction)
    (d : CenterActionInput) (c : CenterRec)
    (hp : centerActionSafeParse raw = some d)
    (ha : isAuthorityUser (dbUserFindOne db d.adminFirebaseUid) = true)
    (hc : dbCenterFindById db d.centerId = some c) :
    verifyCenter noFaults db raw
      = (ActionResult.success,
         { db with centers := db.centers.map (setVerifiedIfId d.centerId) })
    ∧ verifyCenter noFaults
        { db with centers := db.centers.map (setVerifiedIfId d.centerId) } raw
      = (ActionResult.success,
         { db with centers := db.centers.map (setVerifiedIfId d.centerId) })
    ∧ dbCenterFindById
        { db with centers := db.centers.map (setVerifiedIfId d.centerId) }
        d.centerId = some { c with verified := true } := by
  unfold dbCenterFindById at hc
  have hcid : c._id = d.centerId := by simpa using List.find?_some hc
  have hfind1 :
      (db.centers.map (setVerifiedIfId d.centerId)).find?
          (fun x => x._id == d.centerId)
        = some { c with verified := true } := by
    rw [find?_map_setVerified, hc]
    simp [setVerifiedIfId, hcid]
  refine ⟨?_, ?_, ?_⟩
  · simp [verifyCenter, hp, verifyCenterBody, noFaults, ha,
          dbCenterFindByIdAndUpdateVerified, hc]
  · have ha' :
        isAuthorityUser (dbUserFindOne
          { db with centers := db.centers.map (setVerifiedIfId d.centerId) }
          d.adminFirebaseUid) = true := by
      simpa [dbUserFindOne] using ha
    simp [verifyCenter, hp, verifyCenterBody, noFaults, ha',
          dbCenterFindByIdAndUpdateVerified, hfind1, map_setVerified_idem]
    exact fun a _ => setVerifiedIfId_idem d.centerId a
  · simpa [dbCenterFindById] using hfind1

/-- Witness for C3: approving center `X` twice on the sample store; both
calls succeed, the second changes nothing, and `X.verified` is `true`. -/
theorem verifyCenter_idem_witness :
    verifyCenter noFaults sampleDB ⟨some "X", some "A1"⟩
      = (ActionResult.success,
         { sampleDB with
             centers := sampleDB.centers.map (setVerifiedIfId "X") })
    ∧ verifyCenter noFaults
        { sampleDB with
            centers := sampleDB.centers.map (setVerifiedIfId "X") }
        ⟨some "X", some "A1"⟩
      = (ActionResult.success,
         { sampleDB with
             centers := sampleDB.centers.map (setVerifiedIfId "X") })
    ∧ dbCenterFindById
        { sampleDB with
            centers := sampleDB.centers.map (setVerifiedIfId "X") } "X"
      = some { sampleCenter with verified := true } :=
  verifyCenter_idem sampleDB ⟨some "X", some "A1"⟩ ⟨"X", "A1"⟩ sampleCenter
    (by decide) (by decide) (by decide)

/-- C9: for every `updateUserRole` call that succeeds, the only stored
change is the target user's `role` field: the result is exactly the save of
the target with `role` replaced, the `Center` collection is unchanged,
every user other than the target is still stored unchanged, every stored
user afterwards is an old record or the updated target, and the updated
target agrees with the old target on every field except `role`. -/
theorem updateUserRole_frame (db : DB) (raw : RawUpdateUserRole)
    (d : UpdateUserRoleInput) (t : UserRec)
    (hp : updateUserRoleSafeParse raw = some d)
    (ha : isAuthorityUser (dbUserFindOne db d.adminFirebaseUid) = true)
    (ht : dbUserFindById db d.targetUserId = some t)
    (hne : t.firebaseUid ≠ d.adminFirebaseUid) :
    updateUserRole noFaults db raw
      = (ActionResult.success, dbUserSave db { t with role := d.newRole })
    ∧ (dbUserSave db { t with role := d.newRole }).centers = db.centers
    ∧ (∀ u, u ∈ db.users → u._id ≠ d.targetUserId →
        u ∈ (dbUserSave db { t with role := d.newRole }).users)
    ∧ (∀ u, u ∈ (dbUserSave db { t with role := d.newRole }).users →
        u ∈ db.users ∨ u = { t with role := d.newRole })
    ∧ ({ t with role := d.newRole }).role = d.newRole
    ∧ ({ t with role := d.newRole })._id = t._id
    ∧ ({ t with role := d.newRole }).__v = t.__v
    ∧ ({ t with role := d.newRole }).firebaseUid = t.firebaseUid
    ∧ ({ t with role := d.newRole }).email = t.email
    ∧ ({ t with role := d.newRole }).firstName = t.firstName
    ∧ ({ t with role := d.newRole }).lastName = t.lastName
    ∧ ({ t with role := d.newRole }).displayName = t.displayName
    ∧ ({ t with role := d.newRole }).emailVerified = t.emailVerified := by
  have htid : t._id = d.targetUserId := dbUserFindById_id db d.targetUserId t ht
  obtain ⟨a, hoa, _, hauid⟩ := isAuthority_exists db d.adminFirebaseUid ha
  rw [hoa] at ha
  refine ⟨?_, rfl, ?_, ?_, rfl, rfl, rfl, rfl, rfl, rfl, rfl, rfl, rfl⟩
  · have hcond : ¬ (d.adminFirebaseUid = t.firebaseUid) := fun h => hne h.symm
    simp [updateUserRole, hp, updateUserRoleBody, noFaults, ha, ht, hoa,
          hauid, hcond]
  · intro u hu hid
    rw [dbUserSave]
    simp only [List.mem_map]
    refine ⟨u, hu, ?_⟩
    have hbeq : (u._id == t._id) = false := by
      rw [htid]
      exact beq_eq_false_iff_ne.mpr hid
    simp [hbeq]
  · intro u hu
    rw [dbUserSave] at hu
    simp only [List.mem_map] at hu
    obtain ⟨v, hv, hvu⟩ := hu
    by_cases hcase : (v._id == t._id) = true
    · right
      rw [← hvu]
      simp [hcase]
    · left
      rw [← hvu]
      have hcase' : (v._id == t._id) = false := by
        cases hb : (v._id == t._id) with
        | true => exact absurd hb hcase
        | false => rfl
      simp [hcase']
      exact hv

/-- Witness for C9: the admin sets the citizen `U2` to `authority` on the
sample store; the call succeeds and the store change is exactly the saved
target with its role replaced. -/
theorem updateUserRole_frame_witness :
    updateUserRole noFaults sampleDB ⟨some "U2", some "authority", some "A1"⟩
      = (ActionResult.success,
         dbUserSave sampleDB { sampleCitizen with role := Role.authority })
    ∧ (dbUserSave sampleDB
        { sampleCitizen with role := Role.authority }).centers
      = sampleDB.centers :=
  ⟨(updateUserRole_frame sampleDB ⟨some "U2", some "authority", some "A1"⟩
      ⟨"U2", Role.authority, "A1"⟩ sampleCitizen (by decide) (by decide)
      (by decide) (by decide)).1,
   (updateUserRole_frame sampleDB ⟨some "U2", some "authority", some "A1"⟩
      ⟨"U2", Role.authority, "A1"⟩ sampleCitizen (by decide) (by decide)
      (by decide) (by decide)).2.1⟩

/-- C6: for every signup call in which the identity provider reports
email-already-in-use, no local `User` record is created and the failure
carries the specific email-already-in-use text; any other provider error
code except weak-password yields the generic message (and also creates no
record). -/
theorem signup_email_in_use (env : SignupEnv) (db : DB) (fd : SignupFormData) :
    (env.createUser = Except.error AuthErrCode.emailAlreadyInUse →
      signup env db fd
        = (SignupResult.failure "A user with this email already exists.", db))
    ∧ (∀ c, env.createUser = Except.error c →
      c ≠ AuthErrCode.emailAlreadyInUse → c ≠ AuthErrCode.weakPassword →
      signup env db fd
        = (SignupResult.failure "An unexpected error occurred during signup.", db)) := by
  constructor
  · intro h
    simp [signup, h, signupErrorMessage]
  · intro c h h1 h2
    cases c with
    | emailAlreadyInUse => exact absurd rfl h1
    | weakPassword => exact absurd rfl h2
    | other => simp [signup, h, signupErrorMessage]

/-- Witness for C6: on an empty store, signup against a provider reporting
email-already-in-use fails with the specific message and stores nothing,
and one reporting an unrecognized code fails with the generic message. -/
theorem signup_email_in_use_witness :
    signup ⟨Except.error AuthErrCode.emailAlreadyInUse, false, false, false, "M1"⟩
        ⟨[], []⟩ ⟨"New", "User", "n@x.org", "pw123456"⟩
      = (SignupResult.failure "A user with this email already exists.",
         ⟨[], []⟩)
    ∧ signup ⟨Except.error AuthErrCode.other, false, false, false, "M1"⟩
        ⟨[], []⟩ ⟨"New", "User", "n@x.org", "pw123456"⟩
      = (SignupResult.failure "An unexpected error occurred during signup.",
         ⟨[], []⟩) :=
  ⟨(signup_email_in_use
      ⟨Except.error AuthErrCode.emailAlreadyInUse, false, false, false, "M1"⟩
      ⟨[], []⟩ ⟨"New", "User", "n@x.org", "pw123456"⟩).1 rfl,
   (signup_email_in_use
      ⟨Except.error AuthErrCode.other, false, false, false, "M1"⟩
      ⟨[], []⟩ ⟨"New", "User", "n@x.org", "pw123456"⟩).2
     AuthErrCode.other rfl (by decide) (by decide)⟩

/-- Counterexample to C7: with the identity-provider account creation
succeeding and the verification-email dispatch throwing, `signup` returns a
failure (the dispatch failure IS surfaced to the caller) and the local
`User` collection stays empty (record creation IS blocked by it). -/
theorem signup_email_dispatch_failure_cex :
    signup ⟨Except.ok ⟨"u1", "n@x.org"⟩, true, false, false, "M1"⟩
        ⟨[], []⟩ ⟨"New", "User", "n@x.org", "pw123456"⟩
      = (SignupResult.failure "An unexpected error occurred during signup.",
         ⟨[], []⟩)
    ∧ (signup ⟨Except.ok ⟨"u1", "n@x.org"⟩, true, false, false, "M1"⟩
        ⟨[], []⟩ ⟨"New", "User", "n@x.org", "pw123456"⟩).2.users = [] := by
  constructor <;> rfl

/-- C7 amended: the verification-email dispatch is NOT an exempted
best-effort step in `signup`: there is no inner catch around it, so when it
fails the single signup boundary handler catches it, the call returns the
generic failure message, and the local `User` record creation does not
proceed (the store is unchanged). -/
theorem signup_email_dispatch_failure_surfaced (env : SignupEnv) (db : DB)
    (fd : SignupFormData) (fu : FirebaseUser)
    (hc : env.createUser = Except.ok fu)
    (hs : env.exSendVerification = true) :
    signup env db fd
      = (SignupResult.failure "An unexpected error occurred during signup.", db) := by
  simp [signup, hc, hs, signupErrorMessage]

/-- Witness for the amended C7: concrete signup run in which the dispatch
throws; the caller sees the generic failure and the store is unchanged. -/
theorem signup_email_dispatch_failure_surfaced_witness :
    signup ⟨Except.ok ⟨"u2", "m@x.org"⟩, true, false, false, "M2"⟩
        ⟨[sampleAdmin], []⟩ ⟨"Ma", "Ri", "m@x.org", "pw123456"⟩
      = (SignupResult.failure "An unexpected error occurred during signup.",
         ⟨[sampleAdmin], []⟩) :=
  signup_email_dispatch_failure_surfaced
    ⟨Except.ok ⟨"u2", "m@x.org"⟩, true, false, false, "M2"⟩
    ⟨[sampleAdmin], []⟩ ⟨"Ma", "Ri", "m@x.org", "pw123456"⟩
    ⟨"u2", "m@x.org"⟩ rfl rfl

/-- C10: for every successful signup, the returned user object is the
persisted record with the store-assigned `_id` and version `__v` stripped
(and the `ClientUser` shape has no password field at all: the result is
unchanged under any password), while the persisted record has
`displayName = firstName ++ " " ++ lastName` and `emailVerified = false`. -/
theorem signup_success_shape (env : SignupEnv) (db : DB)
    (fd : SignupFormData) (fu : FirebaseUser)
    (hc : env.createUser = Except.ok fu)
    (hs : env.exSendVerification = false)
    (hd : env.exDbConnect = false)
    (hv : env.exSave = false) :
    ∃ newUser : UserRec,
      signup env db fd
        = (SignupResult.success (toClientObject newUser),
           { db with users := db.users ++ [newUser] })
      ∧ newUser.displayName = fd.firstName ++ " " ++ fd.lastName
      ∧ newUser.emailVerified = false
      ∧ newUser._id = env.assignedId
      ∧ newUser.firebaseUid = fu.uid
      ∧ toClientObject newUser
        = ⟨fu.uid, fu.email, fd.firstName, fd.lastName,
           fd.firstName ++ " " ++ fd.lastName, Role.citizen, false⟩
      ∧ (∀ pw, signup env db
            ⟨fd.firstName, fd.lastName, fd.email, pw⟩
          = (SignupResult.success (toClientObject newUser),
             { db with users := db.users ++ [newUser] })) := by
  refine ⟨⟨env.assignedId, 0, fu.uid, fu.email, fd.firstName, fd.lastName,
           fd.firstName ++ " " ++ fd.lastName, Role.citizen, false⟩,
          ?_, rfl, rfl, rfl, rfl, rfl, ?_⟩
  · simp [signup, hc, hs, hd, hv]
  · intro pw
    simp [signup, hc, hs, hd, hv]

/-- Witness for C10: concrete successful signup on the sample store; the
returned object drops `_id`/`__v`, the stored record derives `displayName`
and starts unverified, and the result is identical under another password. -/
theorem signup_success_shape_witness :
    (∃ newUser : UserRec,
      signup ⟨Except.ok ⟨"u3", "p@x.org"⟩, false, false, false, "M3"⟩
          ⟨[sampleAdmin], []⟩ ⟨"Pat", "Lee", "p@x.org", "pw123456"⟩
        = (SignupResult.success (toClientObject newUser),
           { users := [sampleAdmin] ++ [newUser], centers := ([] : List CenterRec) })
      ∧ newUser.displayName = "Pat" ++ " " ++ "Lee"
      ∧ newUser.emailVerified = false
      ∧ newUser._id = "M3"
      ∧ newUser.firebaseUid = "u3"
      ∧ toClientObject newUser
        = ⟨"u3", "p@x.org", "Pat", "Lee", "Pat" ++ " " ++ "Lee",
           Role.citizen, false⟩
      ∧ (∀ pw, signup ⟨Except.ok ⟨"u3", "p@x.org"⟩, false, false, false, "M3"⟩
            ⟨[sampleAdmin], []⟩ ⟨"Pat", "Lee", "p@x.org", pw⟩
          = (SignupResult.success (toClientObject newUser),
             { users := [sampleAdmin] ++ [newUser], centers := ([] : List CenterRec) }))) :=
  signup_success_shape
    ⟨Except.ok ⟨"u3", "p@x.org"⟩, false, false, false, "M3"⟩
    ⟨[sampleAdmin], []⟩ ⟨"Pat", "Lee", "p@x.org", "pw123456"⟩
    ⟨"u3", "p@x.org"⟩ rfl rfl rfl rfl

/-- C8: every exposed operation is total at its boundary: under every fault
environment (any subset of store / identity-provider calls throwing) and
every input, each operation returns a structured envelope (success or a
failure with a message), never an unhandled fault; and when every external
call throws, each operation (past validation, which needs no external call)
returns its boundary handler's generic failure with the store unchanged. -/
theorem operations_return_envelope (env : Faults) (senv : SignupEnv)
    (db : DB) (rawU : RawUpdateUserRole) (rawC : RawCenterAction)
    (fd : SignupFormData) :
    ((∃ us, getUsers env db = GetUsersResult.success us)
      ∨ (∃ e, getUsers env db = GetUsersResult.failure e))
    ∧ ((∃ cs, getCenters env db = GetCentersResult.success cs)
      ∨ (∃ e, getCenters env db = GetCentersResult.failure e))
    ∧ ((updateUserRole env db rawU).1 = ActionResult.success
      ∨ (∃ e, (updateUserRole env db rawU).1 = ActionResult.failure e))
    ∧ ((verifyCenter env db rawC).1 = ActionResult.success
      ∨ (∃ e, (verifyCenter env db rawC).1 = ActionResult.failure e))
    ∧ ((rejectCenter env db rawC).1 = ActionResult.success
      ∨ (∃ e, (rejectCenter env db rawC).1 = ActionResult.failure e))
    ∧ ((∃ u, (signup senv db fd).1 = SignupResult.success u)
      ∨ (∃ e, (signup senv db fd).1 = SignupResult.failure e))
    ∧ (∀ d, updateUserRoleSafeParse rawU = some d →
        updateUserRole allFaults db rawU
          = (ActionResult.failure "An internal error occurred while updating the role.", db))
    ∧ (∀ d, centerActionSafeParse rawC = some d →
        verifyCenter allFaults db rawC
          = (ActionResult.failure "An internal error occurred while verifying the center.", db))
    ∧ (∀ d, centerActionSafeParse rawC = some d →
        rejectCenter allFaults db rawC
          = (ActionResult.failure "An internal error occurred while rejecting the center.", db, []))
    ∧ getUsers allFaults db = GetUsersResult.failure "Failed to fetch users."
    ∧ getCenters allFaults db
      = GetCentersResult.failure "Failed to fetch centers." := by
  refine ⟨?_, ?_, ?_, ?_, ?_, ?_, ?_, ?_, ?_, ?_, ?_⟩
  · cases h : getUsers env db with
    | success us => exact Or.inl ⟨us, rfl⟩
    | failure e => exact Or.inr ⟨e, rfl⟩
  · cases h : getCenters env db with
    | success cs => exact Or.inl ⟨cs, rfl⟩
    | failure e => exact Or.inr ⟨e, rfl⟩
  · cases h : (updateUserRole env db rawU).1 with
    | success => exact Or.inl rfl
    | failure e => exact Or.inr ⟨e, rfl⟩
  · cases h : (verifyCenter env db rawC).1 with
    | success => exact Or.inl rfl
    | failure e => exact Or.inr ⟨e, rfl⟩
  · cases h : (rejectCenter env db rawC).1 with
    | success => exact Or.inl rfl
    | failure e => exact Or.inr ⟨e, rfl⟩
  · cases h : (signup senv db fd).1 with
    | success u => exact Or.inl ⟨u, rfl⟩
    | failure e => exact Or.inr ⟨e, rfl⟩
  · intro d hp
    simp [updateUserRole, hp, updateUserRoleBody, allFaults]
  · intro d hp
    simp [verifyCenter, hp, verifyCenterBody, allFaults]
  · intro d hp
    simp [rejectCenter, hp, rejectCenterBody, allFaults]
  · simp [getUsers, allFaults]
  · simp [getCenters, allFaults]

/-- Witness for C8: with every external call throwing, the three mutations
on the sample store return their generic boundary failures and the fetches
their fetch failures; nothing escapes the envelope. -/
theorem operations_return_envelope_witness :
    updateUserRole allFaults sampleDB ⟨some "U2", some "citizen", some "A1"⟩
      = (ActionResult.failure "An internal error occurred while updating the role.", sampleDB)
    ∧ verifyCenter allFaults sampleDB ⟨some "X", some "A1"⟩
      = (ActionResult.failure "An internal error occurred while verifying the center.", sampleDB)
    ∧ rejectCenter allFaults sampleDB ⟨some "X", some "A1"⟩
      = (ActionResult.failure "An internal error occurred while rejecting the center.", sampleDB, [])
    ∧ getUsers allFaults sampleDB = GetUsersResult.failure "Failed to fetch users."
    ∧ getCenters allFaults sampleDB
      = GetCentersResult.failure "Failed to fetch centers." := by
  have h := operations_return_envelope allFaults
    ⟨Except.ok ⟨"u9", "w@x.org"⟩, true, true, true, "M9"⟩ sampleDB
    ⟨some "U2", some "citizen", some "A1"⟩ ⟨some "X", some "A1"⟩
    ⟨"Wit", "Ness", "w@x.org", "pw123456"⟩
  exact ⟨h.2.2.2.2.2.2.1 ⟨"U2", Role.citizen, "A1"⟩ (by decide),
         h.2.2.2.2.2.2.2.1 ⟨"X", "A1"⟩ (by decide),
         h.2.2.2.2.2.2.2.2.1 ⟨"X", "A1"⟩ (by decide),
         h.2.2.2.2.2.2.2.2.2.1,
         h.2.2.2.2.2.2.2.2.2.2⟩
